import Mathlib

/-!
Verification development for the SocraticImageGeneration repository.

Strings are modelled as `List Char` (a Python `str` is a sequence of code
points).  CPython string operations used by the repository are embedded as
executable Lean functions:

* `pyReplace`   models `str.replace(old, new)` (all non-overlapping
  occurrences, scanned left to right; every pattern the repository passes is
  a non-empty placeholder literal, so the CPython empty-pattern behaviour is
  never exercised and `pyReplace` returns the string unchanged there);
* `pySplitTab`  models `str.split("\t")`;
* the Python substring test `"Yes" in s` is modelled by the decidable
  infix relation `_ <:+: _` on `List Char`.

Fallible Python code is embedded with `Except PyError`.
-/

namespace SIG

/-- Python exception outcomes raised by the embedded repository code. -/
inductive PyError where
  | IndexError
  | UnboundLocalError (name : List Char)
  | AttributeError (name : List Char)
  | ValueError (msg : List Char)
  | FileNotFoundError (name : List Char)
  | RuntimeError (msg : List Char)
deriving DecidableEq

instance instDecEqExcept {ε α : Type} [DecidableEq ε] [DecidableEq α] :
    DecidableEq (Except ε α) := fun x y =>
  match x, y with
  | Except.ok a, Except.ok b =>
      if h : a = b then Decidable.isTrue (congrArg Except.ok h)
      else Decidable.isFalse (fun hc => h (Except.ok.inj hc))
  | Except.ok _, Except.error _ => Decidable.isFalse (fun hc => Except.noConfusion hc)
  | Except.error _, Except.ok _ => Decidable.isFalse (fun hc => Except.noConfusion hc)
  | Except.error e, Except.error g =>
      if h : e = g then Decidable.isTrue (congrArg Except.error h)
      else Decidable.isFalse (fun hc => h (Except.error.inj hc))

/-- Fuelled scanner behind `pyReplace`; fuel bounds the number of scan steps
(one unit per step, and each step consumes at least one character when the
pattern is non-empty, so fuel equal to the input length suffices). -/
def replaceGo (pat rep : List Char) : Nat → List Char → List Char
  | _, [] => []
  | 0, s => s
  | fuel+1, c :: rest =>
    if pat <+: (c :: rest) then
      rep ++ replaceGo pat rep fuel (List.drop (pat.length - 1) rest)
    else
      c :: replaceGo pat rep fuel rest

/-- Model of CPython `s.replace(pat, rep)` for the non-empty patterns the
repository uses: replace each non-overlapping occurrence, left to right. -/
def pyReplace (s pat rep : List Char) : List Char :=
  if pat = [] then s else replaceGo pat rep s.length s

/-- Fuelled scanner behind `splitOnSub`: cut the string at each
non-overlapping occurrence of the pattern, left to right. -/
def chunksGo (pat : List Char) : Nat → List Char → List (List Char)
  | _, [] => [[]]
  | 0, s => [s]
  | fuel+1, c :: rest =>
    if pat <+: (c :: rest) then
      [] :: chunksGo pat fuel (List.drop (pat.length - 1) rest)
    else
      match chunksGo pat fuel rest with
      | [] => [[c]]
      | chunk :: chunks => (c :: chunk) :: chunks

/-- Pieces of `s` between the non-overlapping occurrences of `pat`. -/
def splitOnSub (s pat : List Char) : List (List Char) :=
  if pat = [] then [s] else chunksGo pat s.length s

/-- Join a list of strings with a separator between consecutive entries. -/
def joinWith (sep : List Char) : List (List Char) → List Char
  | [] => []
  | [x] => x
  | x :: y :: xs => x ++ sep ++ joinWith sep (y :: xs)

/-- Modelled from the spec: "produce the template with every occurrence of
each placeholder replaced", replacement being "literal substring
substitution" — the string split at every occurrence of the placeholder and
rejoined with the replacement text. -/
def specSubstitute (s pat rep : List Char) : List Char :=
  joinWith rep (splitOnSub s pat)

/-- The `<USER_PROMPT>` placeholder literal. -/
def USER_PROMPT_PH : List Char := ("<USER_PROMPT>").data

/-- The `<IMAGE_CAPTION>` placeholder literal. -/
def IMAGE_CAPTION_PH : List Char := ("<IMAGE_CAPTION>").data

/-- The `<PREVIOUS_PROMPTS>` placeholder literal. -/
def PREVIOUS_PROMPTS_PH : List Char := ("<PREVIOUS_PROMPTS>").data

/-- `LanguageModel.get_language_prompt` (src/model/language_model.py lines
91–117).  The Python `for prompt in previous_prompts` loop reuses the name
`prompt`, so after the loop `prompt` is the *last* element of
`previous_prompts` (and `previous_prompt` is the concatenation of all of
them, `prompt_prefix` and `prompt_suffix` both being empty strings); the
final `prompt.replace` therefore acts on that last element, and the
substituted template computed before the `if` is discarded. -/
def get_language_prompt (template user_prompt image_caption : List Char)
    (previous_prompts : List (List Char)) : List Char :=
  let prompt := pyReplace template USER_PROMPT_PH user_prompt
  let prompt := pyReplace prompt IMAGE_CAPTION_PH image_caption
  if previous_prompts.length > 0 then
    let previous_prompt := previous_prompts.foldl (fun acc p => acc ++ ([] ++ p ++ [])) []
    let prompt := previous_prompts.getLastD []
    pyReplace prompt PREVIOUS_PROMPTS_PH previous_prompt
  else
    prompt

/-- `LanguageModel.get_similarity_prompt` (lines 119–135). -/
def get_similarity_prompt (similarity_template user_prompt image_caption : List Char) :
    List Char :=
  let prompt := pyReplace similarity_template USER_PROMPT_PH user_prompt
  pyReplace prompt IMAGE_CAPTION_PH image_caption

/-- `LanguageModel.check_similarity` (lines 40–56).  The backend call
`query_language_model` is an external collaborator, passed as a function
from the built prompt to the raw text response.  The Python code returns
`1 if "Yes" in similarity_response else 0`. -/
def check_similarity (query_language_model : List Char → List Char)
    (similarity_template user_prompt image_caption : List Char) : Nat :=
  let similarity_prompt := get_similarity_prompt similarity_template user_prompt image_caption
  let similarity_response := query_language_model similarity_prompt
  if (("Yes").data) <:+: similarity_response then 1 else 0

/-- A role-tagged message sent to the chat/completion service. -/
structure Message where
  role : List Char
  content : List Char
deriving DecidableEq

/-- The fields of a chat/completion service response that the adapter reads:
`usage.total_tokens` and `choices[0].message.content`. -/
structure ChatResponse where
  total_tokens : Nat
  content : List Char
deriving DecidableEq

/-- State of a `ChatGPT` adapter instance (src/model/language_model.py lines
159–239).  Template, similarity template and role are the file contents
loaded by `load_template`; loading is an external file read, so the texts
are taken as inputs. -/
structure ChatGPTAdapter where
  template : List Char
  similarity_template : List Char
  model : List Char
  api_key : List Char
  token_usage : Nat
  role : List Char
deriving DecidableEq

/-- `ChatGPT.__init__` (lines 164–171): `model` is the enum value
`"chat_gpt"` and `token_usage` starts at `0`.  No backend query happens
during construction. -/
def chatGPT_mk (template similarity_template api_key role : List Char) : ChatGPTAdapter :=
  ⟨template, similarity_template, ("chat_gpt").data, api_key, 0, role⟩

/-- `load_language_model` (lines 8–27): `kwargs.get('model_name', 'chat_gpt')`,
then either a `ChatGPT` instance or
`ValueError(f"Unknown language model {model_name}")`.  No backend query is
involved in either branch. -/
def load_language_model (model_name : Option (List Char))
    (template similarity_template api_key role : List Char) :
    Except PyError ChatGPTAdapter :=
  let name := model_name.getD (("chat_gpt").data)
  if name = ("chat_gpt").data then
    Except.ok (chatGPT_mk template similarity_template api_key role)
  else
    Except.error (PyError.ValueError ((("Unknown language model ").data) ++ name))

/-- `ChatGPT.get_language_prompt` (lines 173–195): a system message carrying
the adapter's role text, then one user message with `<USER_PROMPT>` and
`<IMAGE_CAPTION>` substituted into the template.  The body never reads
`previous_prompts`. -/
def chatGPT_get_language_prompt (adapter : ChatGPTAdapter)
    (user_prompt image_caption : List Char) (previous_prompts : List (List Char)) :
    List Message :=
  let _ := previous_prompts
  let message := [(⟨("system").data, adapter.role⟩ : Message)]
  let prompt := pyReplace adapter.template USER_PROMPT_PH user_prompt
  let prompt := pyReplace prompt IMAGE_CAPTION_PH image_caption
  message ++ [(⟨("user").data, prompt⟩ : Message)]

/-- `ChatGPT.query_language_model` (lines 218–233).  The
`openai.ChatCompletion.create` call is the external service, passed as a
function from the message list to a response; the adapter adds
`usage.total_tokens` to `token_usage` and returns
`choices[0].message.content`. -/
def chatGPT_query_language_model (service : List Message → ChatResponse)
    (adapter : ChatGPTAdapter) (prompt : List Message) : ChatGPTAdapter × List Char :=
  let generated_prompt := service prompt
  (⟨adapter.template, adapter.similarity_template, adapter.model, adapter.api_key,
    adapter.token_usage + generated_prompt.total_tokens, adapter.role⟩,
   generated_prompt.content)

/-- `ChatGPT.reset` (lines 235–239): the body is `pass`, so the state is
unchanged. -/
def chatGPT_reset (adapter : ChatGPTAdapter) : ChatGPTAdapter :=
  adapter

/-- `LanguageModel.generate_optimized_prompt` as executed by a `ChatGPT`
instance (lines 59–74): build the message list, query the backend once. -/
def chatGPT_generate_optimized_prompt (service : List Message → ChatResponse)
    (adapter : ChatGPTAdapter) (user_prompt image_caption : List Char)
    (previous_prompts : List (List Char)) : ChatGPTAdapter × List Char :=
  let LLM_prompt := chatGPT_get_language_prompt adapter user_prompt image_caption previous_prompts
  chatGPT_query_language_model service adapter LLM_prompt

/-- One observable adapter operation for the token-usage invariant: a
backend query (carrying the message list sent and the response the service
returned) or a `reset`. -/
inductive AdapterOp where
  | query (prompt : List Message) (resp : ChatResponse)
  | reset

/-- Effect of one adapter operation on the adapter state. -/
def applyOp (adapter : ChatGPTAdapter) : AdapterOp → ChatGPTAdapter
  | AdapterOp.query prompt resp =>
      (chatGPT_query_language_model (fun _ => resp) adapter prompt).1
  | AdapterOp.reset => chatGPT_reset adapter

/-- Tag of an `optimized_prompt` line in `prompts.csv`. -/
def OPTIMIZED_TAG : List Char := ("optimized_prompt").data

/-- Tag of a `user_prompt` line in `prompts.csv`. -/
def USER_TAG : List Char := ("user_prompt").data

/-- The tag test of `Evaluate.load_prompts` (src/evaluation/evaluate.py line
39): `prompt_line.startswith("optimized_prompt") or
prompt_line.startswith("user_prompt")`. -/
def isTaggedLine (line : List Char) : Bool :=
  decide (OPTIMIZED_TAG <+: line) || decide (USER_TAG <+: line)

/-- Model of CPython `s.split("\t")`. -/
def pySplitTab : List Char → List (List Char)
  | [] => [[]]
  | c :: rest =>
    if c = '\t' then [] :: pySplitTab rest
    else match pySplitTab rest with
      | [] => [[c]]
      | chunk :: chunks => (c :: chunk) :: chunks

/-- `prompt_line.split("\t")[-1]` (line 40): the text after the last tab of
the line (the whole line when it has no tab). -/
def tagText (line : List Char) : List Char :=
  (pySplitTab line).getLastD []

/-- `prompts[-1] += prompt_line` (line 42): append to the last entry. -/
def appendToLast (x : List Char) : List (List Char) → List (List Char)
  | [] => []
  | [a] => [a ++ x]
  | a :: b :: rest => a :: appendToLast x (b :: rest)

/-- Loop of `Evaluate.load_prompts` (lines 37–42) over the remaining lines,
carrying the `prompts` list built so far; `prompts[-1]` on an empty list
raises `IndexError`. -/
def load_prompts_go : List (List Char) → List (List Char) → Except PyError (List (List Char))
  | prompts, [] => Except.ok prompts
  | prompts, line :: rest =>
    if isTaggedLine line then load_prompts_go (prompts ++ [tagText line]) rest
    else match prompts with
      | [] => Except.error PyError.IndexError
      | _ :: _ => load_prompts_go (appendToLast line prompts) rest

/-- `Evaluate.load_prompts` (lines 31–45), applied to the physical lines of
`prompts.csv` (the result of `f.read().splitlines()`). -/
def load_prompts (lines : List (List Char)) : Except PyError (List (List Char)) :=
  load_prompts_go [] lines

/-- Modelled from the spec: the logical prompt entries of a prompt log —
one entry per tagged line, in file order, an untagged line being
"concatenated onto the immediately preceding logical prompt entry" without
a separating token.  Worker: `cur` is the entry currently being grown. -/
def specEntriesGo (cur : List Char) : List (List Char) → List (List Char)
  | [] => [cur]
  | line :: rest =>
    if isTaggedLine line then cur :: specEntriesGo (tagText line) rest
    else specEntriesGo (cur ++ line) rest

/-- Modelled from the spec: logical prompt entries of a whole file whose
first line is tagged. -/
def specEntries : List (List Char) → List (List Char)
  | [] => []
  | line :: rest =>
    if isTaggedLine line then specEntriesGo (tagText line) rest
    else []

/-- One prompt folder of an experiment directory: its numeric name, the
physical lines of its `prompts.csv`, and how many files
`image_0.png … image_{numImages-1}.png` exist in it. -/
structure Folder where
  folderId : Nat
  lines : List (List Char)
  numImages : Nat
deriving DecidableEq

/-- The in-memory result accumulator (`self.result_dict`, lines 72–79 and
153–160): one list per column. -/
structure ResultAcc where
  prompt_id : List Nat
  image_id : List Nat
  score : List ℚ
  user_prompt : List (List Char)
  optimized_prompt : List (List Char)
  image_path : List (List Char)
deriving DecidableEq

/-- The empty accumulator both strategies start from. -/
def emptyAcc : ResultAcc := ⟨[], [], [], [], [], []⟩

/-- `[Image.open(...image_{image_idx}.png) for image_idx in range(n)]`
(lines 105 and 183): opening a missing image raises; images are modelled by
their cycle index. -/
def loadImages (f : Folder) (n : Nat) : Except PyError (List Nat) :=
  if n ≤ f.numImages then Except.ok (List.range n)
  else Except.error (PyError.FileNotFoundError (("image_").data))

/-- `CLIPScore.encode_images` (lines 81–85): `torch.stack` on an empty list
raises; otherwise each image is encoded to its unit-normalized feature
vector.  The CLIP model together with the normalization is the external
`encodeImage` function. -/
def encode_images (encodeImage : Nat → List ℚ) (images : List Nat) :
    Except PyError (List (List ℚ)) :=
  if images = [] then
    Except.error (PyError.RuntimeError (("stack expects a non-empty TensorList").data))
  else
    Except.ok (images.map encodeImage)

/-- Dot product of two feature vectors. -/
def dotQ : List ℚ → List ℚ → ℚ
  | [], _ => 0
  | _, [] => 0
  | x :: xs, y :: ys => x * y + dotQ xs ys

/-- Body of the `CLIPScore.evaluate` folder loop (lines 92–123) for one
prompt folder.  After the scores are computed, line 115 executes
`del user_prompt, user_prompt_features, images, images_features, raw_images`;
`images` is a local name whose only assignment (line 107) is commented out,
so the `del` raises `UnboundLocalError` before the accumulator is ever
extended. -/
def clipScore_folder_step (encodeText : List Char → List ℚ) (encodeImage : Nat → List ℚ)
    (f : Folder) (acc : ResultAcc) : Except PyError ResultAcc := do
  let prompts ← load_prompts f.lines
  let p0 ← match prompts with
    | [] => Except.error PyError.IndexError
    | p :: _ => Except.ok p
  let user_prompt_features := encodeText p0
  let raw_images ← loadImages f prompts.length
  let images_features ← encode_images encodeImage raw_images
  let scores := images_features.map (fun v => 100 * dotQ v user_prompt_features)
  let _ := scores
  let _ := user_prompt_features
  let _ := acc
  Except.error (PyError.UnboundLocalError (("images").data))

/-- `CLIPScore.evaluate` over the (directory) entries of the experiment
folder, threading the accumulator. -/
def clipScore_evaluate_go (encodeText : List Char → List ℚ) (encodeImage : Nat → List ℚ) :
    List Folder → ResultAcc → Except PyError ResultAcc
  | [], acc => Except.ok acc
  | f :: rest, acc => do
    let acc2 ← clipScore_folder_step encodeText encodeImage f acc
    clipScore_evaluate_go encodeText encodeImage rest acc2

/-- `CLIPScore.evaluate` (lines 87–123) for an experiment whose prompt
folders are `folders`. -/
def clipScore_evaluate (encodeText : List Char → List ℚ) (encodeImage : Nat → List ℚ)
    (folders : List Folder) : Except PyError ResultAcc :=
  clipScore_evaluate_go encodeText encodeImage folders emptyAcc

/-- Number of rows `save_results` (lines 136–141) would serialize: one row
per accumulated entry. -/
def numRows (acc : ResultAcc) : Nat :=
  acc.prompt_id.length

/-- Body of the `ImageSimilarity.evaluate` folder loop (lines 175–199) for
one prompt folder.  Line 188 evaluates
`torch.stack([self.image_similarity.cos_similarity(original, features) for
features in images_features[1:]])`: the comprehension body looks up the
attribute `image_similarity`, which the class never defines, so the first
element raises `AttributeError`; when the tail is empty the comprehension
is empty and `torch.stack` raises `RuntimeError`. -/
def imageSimilarity_folder_step (encodeImage : Nat → List ℚ)
    (f : Folder) (acc : ResultAcc) : Except PyError ResultAcc := do
  let prompts ← load_prompts f.lines
  let images ← loadImages f prompts.length
  let images_features ← encode_images encodeImage images
  let original ← match images_features with
    | [] => Except.error PyError.IndexError
    | v :: _ => Except.ok v
  let _ := original
  let _ := acc
  match images_features.tail with
  | [] => Except.error (PyError.RuntimeError (("stack expects a non-empty TensorList").data))
  | _ :: _ => Except.error (PyError.AttributeError (("image_similarity").data))

/-- `ImageSimilarity.evaluate` over the (directory) entries of the
experiment folder, threading the accumulator. -/
def imageSimilarity_evaluate_go (encodeImage : Nat → List ℚ) :
    List Folder → ResultAcc → Except PyError ResultAcc
  | [], acc => Except.ok acc
  | f :: rest, acc => do
    let acc2 ← imageSimilarity_folder_step encodeImage f acc
    imageSimilarity_evaluate_go encodeImage rest acc2

/-- `ImageSimilarity.evaluate` (lines 165–199) for an experiment whose
prompt folders are `folders`. -/
def imageSimilarity_evaluate (encodeImage : Nat → List ℚ)
    (folders : List Folder) : Except PyError ResultAcc :=
  imageSimilarity_evaluate_go encodeImage folders emptyAcc

theorem chunksGo_ne_nil (pat : List Char) (fuel : Nat) (s : List Char) :
    chunksGo pat fuel s ≠ [] := by
  match fuel, s with
  | _, [] => simp [chunksGo]
  | 0, c :: rest => simp [chunksGo]
  | fuel+1, c :: rest =>
    simp only [chunksGo]
    split
    · simp
    · split <;> simp

theorem joinWith_cons_cons (sep c : List Char) (chunk : List Char) (chunks : List (List Char)) :
    joinWith sep ((c ++ chunk) :: chunks) = c ++ joinWith sep (chunk :: chunks) := by
  cases chunks <;> simp [joinWith]

theorem joinWith_nil_cons (sep : List Char) (l : List (List Char)) (h : l ≠ []) :
    joinWith sep ([] :: l) = sep ++ joinWith sep l := by
  cases l with
  | nil => exact absurd rfl h
  | cons y ys => simp [joinWith]

theorem replaceGo_eq (pat rep : List Char) :
    ∀ (fuel : Nat) (s : List Char), replaceGo pat rep fuel s = joinWith rep (chunksGo pat fuel s) := by
  intro fuel
  induction fuel with
  | zero =>
    intro s
    cases s <;> simp [replaceGo, chunksGo, joinWith]
  | succ n ih =>
    intro s
    cases s with
    | nil => simp [replaceGo, chunksGo, joinWith]
    | cons c rest =>
      simp only [replaceGo, chunksGo]
      split
      · rw [joinWith_nil_cons rep _ (chunksGo_ne_nil pat n _), ih]
      · obtain ⟨chunk, chunks, hch⟩ := List.exists_cons_of_ne_nil (chunksGo_ne_nil pat n rest)
        rw [ih, hch]
        have h2 : joinWith rep ((c :: chunk) :: chunks) = c :: joinWith rep (chunk :: chunks) := by
          simpa using joinWith_cons_cons rep [c] chunk chunks
        exact h2.symm

theorem pyReplace_eq_specSubstitute (s pat rep : List Char) :
    pyReplace s pat rep = specSubstitute s pat rep := by
  unfold pyReplace specSubstitute splitOnSub
  split
  · simp [joinWith]
  · exact replaceGo_eq pat rep s.length s

theorem replaceGo_no_occurrence (pat rep : List Char) :
    ∀ (fuel : Nat) (s : List Char), ¬ pat <:+: s → replaceGo pat rep fuel s = s := by
  intro fuel
  induction fuel with
  | zero =>
    intro s _
    cases s <;> simp [replaceGo]
  | succ n ih =>
    intro s hinf
    cases s with
    | nil => simp [replaceGo]
    | cons c rest =>
      simp only [replaceGo]
      split
      · rename_i hp
        exact absurd hp.isInfix hinf
      · rw [ih rest]
        intro h2
        exact hinf (h2.trans (List.suffix_cons c rest).isInfix)

theorem pyReplace_self_of_no_occurrence (s pat rep : List Char) (h : ¬ pat <:+: s) :
    pyReplace s pat rep = s := by
  unfold pyReplace
  split
  · rfl
  · exact replaceGo_no_occurrence pat rep s.length s h

theorem getLastD_irrel : ∀ (l : List (List Char)) (_ : l ≠ []) (d e : List Char),
    l.getLastD d = l.getLastD e := by
  intro l h d e
  cases l with
  | nil => exact absurd rfl h
  | cons a t => simp [List.getLastD]

theorem pySplitTab_ne_nil : ∀ (s : List Char), pySplitTab s ≠ [] := by
  intro s
  match s with
  | [] => simp [pySplitTab]
  | c :: rest =>
    simp only [pySplitTab]
    split
    · simp
    · split <;> simp

theorem pySplitTab_tab_cons (post : List Char) :
    pySplitTab ('\t' :: post) = [] :: pySplitTab post := by
  simp [pySplitTab]

theorem pySplitTab_other_cons (c : Char) (hc : c ≠ '\t') (rest chunk : List Char)
    (chunks : List (List Char)) (heq : pySplitTab rest = chunk :: chunks) :
    pySplitTab (c :: rest) = (c :: chunk) :: chunks := by
  simp only [pySplitTab, if_neg hc, heq]

theorem pySplitTab_two_le : ∀ (pre post : List Char),
    2 ≤ (pySplitTab (pre ++ '\t' :: post)).length := by
  intro pre
  induction pre with
  | nil =>
    intro post
    rw [List.nil_append, pySplitTab_tab_cons]
    have h2 : 1 ≤ (pySplitTab post).length := List.length_pos.mpr (pySplitTab_ne_nil post)
    simp only [List.length_cons]
    omega
  | cons c pre2 ih =>
    intro post
    rw [List.cons_append]
    by_cases hc : c = '\t'
    · subst hc
      rw [pySplitTab_tab_cons]
      have h2 : 1 ≤ (pySplitTab (pre2 ++ '\t' :: post)).length :=
        List.length_pos.mpr (pySplitTab_ne_nil _)
      simp only [List.length_cons]
      omega
    · obtain ⟨chunk, chunks, heq⟩ :=
        List.exists_cons_of_ne_nil (pySplitTab_ne_nil (pre2 ++ '\t' :: post))
      rw [pySplitTab_other_cons c hc _ chunk chunks heq]
      have h3 := ih post
      rw [heq] at h3
      simp only [List.length_cons] at h3 ⊢
      omega

theorem getLastD_cons2 (a : List Char) (l : List (List Char)) (d : List Char) :
    (a :: l).getLastD d = l.getLastD a :=
  List.getLastD_cons d a l

theorem tagText_append_tab : ∀ (pre post : List Char),
    tagText (pre ++ '\t' :: post) = tagText post := by
  intro pre
  induction pre with
  | nil =>
    intro post
    unfold tagText
    rw [List.nil_append, pySplitTab_tab_cons, getLastD_cons2]
  | cons c pre2 ih =>
    intro post
    unfold tagText
    rw [List.cons_append]
    by_cases hc : c = '\t'
    · subst hc
      rw [pySplitTab_tab_cons, getLastD_cons2]
      exact ih post
    · obtain ⟨chunk, chunks, heq⟩ :=
        List.exists_cons_of_ne_nil (pySplitTab_ne_nil (pre2 ++ '\t' :: post))
      have h2 := pySplitTab_two_le pre2 post
      rw [heq] at h2
      have hchunks : chunks ≠ [] := by
        intro hz
        rw [hz] at h2
        simp at h2
      rw [pySplitTab_other_cons c hc _ chunk chunks heq, getLastD_cons2]
      have h3 : chunks.getLastD (c :: chunk) = chunks.getLastD chunk :=
        getLastD_irrel chunks hchunks _ _
      rw [h3]
      have h4 : tagText (pre2 ++ '\t' :: post) = chunks.getLastD chunk := by
        unfold tagText
        rw [heq, getLastD_cons2]
      rw [← h4, ih post]
      rfl

theorem pySplitTab_no_tab : ∀ (s : List Char), '\t' ∉ s → pySplitTab s = [s] := by
  intro s
  induction s with
  | nil =>
    intro _
    simp [pySplitTab]
  | cons c rest ih =>
    intro h
    have hc : c ≠ '\t' := fun hz => h (hz ▸ List.mem_cons_self c rest)
    have hrest : '\t' ∉ rest := fun hz => h (List.mem_cons_of_mem c hz)
    exact pySplitTab_other_cons c hc rest rest [] (ih hrest)

theorem tagText_eq_post (pre post : List Char) (h : '\t' ∉ post) :
    tagText (pre ++ '\t' :: post) = post := by
  rw [tagText_append_tab]
  unfold tagText
  rw [pySplitTab_no_tab post h, getLastD_cons2]
  rfl

theorem appendToLast_cons_of_ne_nil (x : List Char) (a : List Char) (l : List (List Char))
    (h : l ≠ []) : appendToLast x (a :: l) = a :: appendToLast x l := by
  cases l with
  | nil => exact absurd rfl h
  | cons b t => rfl

theorem appendToLast_append (x : List Char) :
    ∀ (acc : List (List Char)) (cur : List Char),
      appendToLast x (acc ++ [cur]) = acc ++ [cur ++ x] := by
  intro acc
  induction acc with
  | nil =>
    intro cur
    rfl
  | cons a acc2 ih =>
    intro cur
    rw [List.cons_append, appendToLast_cons_of_ne_nil x a (acc2 ++ [cur]) (by simp), ih,
      List.cons_append]

theorem load_prompts_go_untagged (line : List Char) (rest : List (List Char))
    (l : List (List Char)) (hne : l ≠ []) (h : isTaggedLine line = false) :
    load_prompts_go l (line :: rest) = load_prompts_go (appendToLast line l) rest := by
  cases l with
  | nil => exact absurd rfl hne
  | cons p ps => simp [load_prompts_go, h]

theorem load_prompts_go_spec : ∀ (rest : List (List Char)) (acc : List (List Char))
    (cur : List Char),
    load_prompts_go (acc ++ [cur]) rest = Except.ok (acc ++ specEntriesGo cur rest) := by
  intro rest
  induction rest with
  | nil =>
    intro acc cur
    simp [load_prompts_go, specEntriesGo]
  | cons line rest2 ih =>
    intro acc cur
    by_cases ht : isTaggedLine line
    · have h1 : load_prompts_go (acc ++ [cur]) (line :: rest2)
          = load_prompts_go ((acc ++ [cur]) ++ [tagText line]) rest2 := by
        simp [load_prompts_go, ht]
      rw [h1, ih, specEntriesGo, if_pos ht]
      simp
    · rw [load_prompts_go_untagged line rest2 _ (by simp) (by simpa using ht),
        appendToLast_append, ih, specEntriesGo, if_neg ht]

theorem load_prompts_tagged_head (line : List Char) (rest : List (List Char))
    (h : isTaggedLine line = true) :
    load_prompts (line :: rest) = Except.ok (specEntries (line :: rest)) := by
  unfold load_prompts
  have h1 : load_prompts_go [] (line :: rest)
      = load_prompts_go ([] ++ [tagText line]) rest := by
    simp [load_prompts_go, h]
  rw [h1, load_prompts_go_spec, specEntries, if_pos h]
  simp

theorem foldl_replicate_query : ∀ (n : Nat) (a : ChatGPTAdapter),
    ((List.replicate n (AdapterOp.query [] ⟨1, []⟩)).foldl applyOp a).token_usage
      = a.token_usage + n := by
  intro n
  induction n with
  | zero =>
    intro a
    simp
  | succ m ih =>
    intro a
    rw [List.replicate_succ, List.foldl_cons, ih]
    simp [applyOp, chatGPT_query_language_model]
    omega

/-- C1 (failing evaluation): with a non-empty previous-prompts list,
`get_language_prompt` does not return the template with the placeholders
replaced — the loop variable shadows `prompt`, so the call below returns
the last previous prompt `"P2"` instead of the substituted template
`"T U C P1P2"`. -/
theorem claim_C1 :
    get_language_prompt (("T <USER_PROMPT> <IMAGE_CAPTION> <PREVIOUS_PROMPTS>").data)
        (("U").data) (("C").data) [("P1").data, ("P2").data]
      = ("P2").data
    ∧ ("P2").data ≠ ("T U C P1P2").data := by
  constructor
  · decide
  · decide

/-- C2: with an empty previous-prompts list, `get_language_prompt` returns
the template with every occurrence of `<USER_PROMPT>` and then of
`<IMAGE_CAPTION>` replaced (expressed by the spec-level split-and-rejoin
substitution `specSubstitute`), applies no substitution for
`<PREVIOUS_PROMPTS>` (in particular a template without the two replaced
placeholders is returned verbatim, `<PREVIOUS_PROMPTS>` occurrences and
all), and the function is total, hence never fails. -/
theorem claim_C2 (template user_prompt image_caption : List Char) :
    get_language_prompt template user_prompt image_caption []
        = specSubstitute (specSubstitute template USER_PROMPT_PH user_prompt)
            IMAGE_CAPTION_PH image_caption
    ∧ (¬ USER_PROMPT_PH <:+: template → ¬ IMAGE_CAPTION_PH <:+: template →
        get_language_prompt template user_prompt image_caption [] = template) := by
  constructor
  · simp only [get_language_prompt, List.length_nil, gt_iff_lt, lt_self_iff_false, if_false,
      pyReplace_eq_specSubstitute]
  · intro h1 h2
    simp only [get_language_prompt, List.length_nil, gt_iff_lt, lt_self_iff_false, if_false]
    rw [pyReplace_self_of_no_occurrence template USER_PROMPT_PH user_prompt h1,
      pyReplace_self_of_no_occurrence template IMAGE_CAPTION_PH image_caption h2]

/-- C2 witness: a template containing only the `<PREVIOUS_PROMPTS>`
placeholder passes through unchanged when the previous-prompts list is
empty. -/
theorem claim_C2_witness :
    get_language_prompt (("Describe <PREVIOUS_PROMPTS> nicely").data)
        (("U").data) (("C").data) []
      = ("Describe <PREVIOUS_PROMPTS> nicely").data :=
  (claim_C2 (("Describe <PREVIOUS_PROMPTS> nicely").data) (("U").data) (("C").data)).2
    (by decide) (by decide)

/-- C3: `check_similarity` answers `1` (similar) exactly when the literal
substring `"Yes"` occurs somewhere in the backend's raw response to the
similarity prompt, and any other response yields `0` (not similar) rather
than an error. -/
theorem claim_C3 (query : List Char → List Char) (st up ic : List Char) :
    (check_similarity query st up ic = 1
      ↔ ∃ s t, s ++ ("Yes").data ++ t = query (get_similarity_prompt st up ic))
    ∧ (check_similarity query st up ic = 0 ∨ check_similarity query st up ic = 1) := by
  have hred : check_similarity query st up ic
      = (if ("Yes").data <:+: query (get_similarity_prompt st up ic) then 1 else 0) := rfl
  by_cases h : ("Yes").data <:+: query (get_similarity_prompt st up ic)
  · rw [hred, if_pos h]
    exact ⟨⟨fun _ => h, fun _ => rfl⟩, Or.inr rfl⟩
  · rw [hred, if_neg h]
    exact ⟨⟨fun h1 => absurd h1 (by decide), fun hex => absurd hex h⟩, Or.inl rfl⟩

/-- C4 (failing evaluation): at the spec's own worked scenario — one prompt
folder `0` with a single `user_prompt` log line and one image —
`CLIPScore.evaluate` raises `UnboundLocalError` at
`del user_prompt, user_prompt_features, images, images_features, raw_images`
(`images` is never assigned), so no result table with `Σ k_p` rows is ever
produced. -/
theorem claim_C4 :
    clipScore_evaluate (fun _ => [1]) (fun _ => [1])
        [⟨0, [("user_prompt\tA cat on a mat").data], 1⟩]
      = Except.error (PyError.UnboundLocalError (("images").data)) := by
  decide

/-- C5 (failing evaluation): on a prompt folder with two log entries and
two images, `ImageSimilarity.evaluate` raises `AttributeError` at
`self.image_similarity.cos_similarity(original, features)` — the class has
no attribute `image_similarity` — so no drift score is computed and no row
is appended. -/
theorem claim_C5 :
    imageSimilarity_evaluate (fun _ => [1])
        [⟨0, [("user_prompt\tA").data, ("optimized_prompt\tB").data], 2⟩]
      = Except.error (PyError.AttributeError (("image_similarity").data)) := by
  decide

/-- C6: when the first physical line of `prompts.csv` starts with the
`user_prompt` tag, `load_prompts` succeeds and returns exactly the logical
entries described by the spec (`specEntries`): one entry per tagged line in
file order, every untagged line concatenated — with no separating token —
onto the immediately preceding logical entry. -/
theorem claim_C6 (line : List Char) (rest : List (List Char))
    (h : USER_TAG <+: line) :
    load_prompts (line :: rest) = Except.ok (specEntries (line :: rest)) := by
  apply load_prompts_tagged_head
  simp [isTaggedLine, h]

/-- C6 witness: a three-line file whose middle line is untagged parses to
two logical entries, the untagged line glued onto the first. -/
theorem claim_C6_witness :
    load_prompts [("user_prompt\tA cat").data, ("continues").data,
        ("optimized_prompt\tB dog").data]
      = Except.ok [("A catcontinues").data, ("B dog").data] :=
  (claim_C6 (("user_prompt\tA cat").data)
      [("continues").data, ("optimized_prompt\tB dog").data] (by decide)).trans (by decide)

/-- C7: `load_language_model` returns a ChatGPT adapter when `model_name`
is absent (defaulting to `chat_gpt`) or equal to `chat_gpt`, and for every
other value it raises `ValueError` naming the unknown model; no backend
query is involved in either branch (the embedded constructor takes no query
function). -/
theorem claim_C7 (template similarity_template api_key role : List Char) :
    load_language_model none template similarity_template api_key role
        = Except.ok (chatGPT_mk template similarity_template api_key role)
    ∧ load_language_model (some (("chat_gpt").data)) template similarity_template api_key role
        = Except.ok (chatGPT_mk template similarity_template api_key role)
    ∧ ∀ name : List Char, name ≠ ("chat_gpt").data →
        load_language_model (some name) template similarity_template api_key role
          = Except.error (PyError.ValueError ((("Unknown language model ").data) ++ name)) := by
  refine ⟨rfl, rfl, ?_⟩
  intro name hname
  unfold load_language_model
  simp [hname]

/-- C7 witness: the unknown name `gpt4` is rejected with the descriptive
`ValueError`. -/
theorem claim_C7_witness :
    load_language_model (some (("gpt4").data)) [] [] [] []
      = Except.error (PyError.ValueError (("Unknown language model gpt4").data)) :=
  ((claim_C7 [] [] [] []).2.2 (("gpt4").data) (by decide)).trans (by decide)

/-- C8: the adapter's `token_usage` starts at `0` on construction, each
successful `query_language_model` call adds exactly the response's
`total_tokens`, `reset` leaves the whole state (hence the counter)
unchanged, no adapter operation ever decreases the counter, and no upper
bound is enforced: every bound is exceeded by some operation sequence. -/
theorem claim_C8 :
    (∀ template similarity_template api_key role : List Char,
        (chatGPT_mk template similarity_template api_key role).token_usage = 0)
    ∧ (∀ (service : List Message → ChatResponse) (adapter : ChatGPTAdapter)
          (prompt : List Message),
        ((chatGPT_query_language_model service adapter prompt).1).token_usage
          = adapter.token_usage + (service prompt).total_tokens)
    ∧ (∀ adapter : ChatGPTAdapter, chatGPT_reset adapter = adapter)
    ∧ (∀ (adapter : ChatGPTAdapter) (op : AdapterOp),
        adapter.token_usage ≤ (applyOp adapter op).token_usage)
    ∧ (∀ (adapter : ChatGPTAdapter) (bound : Nat), ∃ ops : List AdapterOp,
        bound < ((ops.foldl applyOp adapter).token_usage)) := by
  refine ⟨fun _ _ _ _ => rfl, fun _ _ _ => rfl, fun _ => rfl, ?_, ?_⟩
  · intro adapter op
    cases op with
    | query prompt resp => simp [applyOp, chatGPT_query_language_model]
    | reset => simp [applyOp, chatGPT_reset]
  · intro adapter bound
    refine ⟨List.replicate (bound+1) (AdapterOp.query [] ⟨1, []⟩), ?_⟩
    rw [foldl_replicate_query]
    omega

/-- C9: the message list built by `ChatGPT.get_language_prompt` is the same
for any two values of the previous-prompts argument — always exactly the
system message with the adapter's role text followed by one user message
with `<USER_PROMPT>` and `<IMAGE_CAPTION>` substituted into the template —
and consequently `generate_optimized_prompt` sends the same request
whatever the previous prompts are. -/
theorem claim_C9 (adapter : ChatGPTAdapter) (user_prompt image_caption : List Char)
    (prev1 prev2 : List (List Char)) :
    chatGPT_get_language_prompt adapter user_prompt image_caption prev1
        = chatGPT_get_language_prompt adapter user_prompt image_caption prev2
    ∧ chatGPT_get_language_prompt adapter user_prompt image_caption prev1
        = [⟨("system").data, adapter.role⟩,
           ⟨("user").data,
            specSubstitute (specSubstitute adapter.template USER_PROMPT_PH user_prompt)
              IMAGE_CAPTION_PH image_caption⟩]
    ∧ ∀ service : List Message → ChatResponse,
        chatGPT_generate_optimized_prompt service adapter user_prompt image_caption prev1
          = chatGPT_generate_optimized_prompt service adapter user_prompt image_caption prev2 := by
  refine ⟨rfl, ?_, fun service => rfl⟩
  simp only [chatGPT_get_language_prompt, pyReplace_eq_specSubstitute]
  rfl

/-- C10: the text `load_prompts` records for a tagged line is the substring
after the line's last tab: a line `pre ++ '\t' ++ post` whose recorded text
`pre` part contains further tabs parses to just `post`. -/
theorem claim_C10 (line pre post : List Char) (hline : line = pre ++ '\t' :: post)
    (hpost : '\t' ∉ post) (htag : isTaggedLine line = true) :
    load_prompts [line] = Except.ok [post] := by
  subst hline
  unfold load_prompts
  have h1 : load_prompts_go [] [pre ++ '\t' :: post]
      = load_prompts_go ([] ++ [tagText (pre ++ '\t' :: post)]) [] := by
    simp [load_prompts_go, htag]
  rw [h1]
  simp [load_prompts_go, tagText_eq_post pre post hpost]

/-- C10 witness: a `user_prompt` line whose text contains a tab is
truncated to the text after the final tab. -/
theorem claim_C10_witness :
    load_prompts [("user_prompt\ta\tb").data] = Except.ok [("b").data] :=
  claim_C10 (("user_prompt\ta\tb").data) (("user_prompt\ta").data) (("b").data)
    (by decide) (by decide) (by decide)

end SIG
